import Mathlib

/-!
Shallow embedding of the reference-counted shared-ownership pointer from
`assignment.cpp` (`detail::ControlBlock`, `SharedPtr<T>`, and the free `swap`).

Modelling conventions:
* Raw pointers are `Option Nat`: `none` is `nullptr`, `some o` is the address
  of managed object `o`.
* The heap is explicit: `State.blocks` holds the control blocks ever allocated
  with `new detail::ControlBlock{...}` (a `none` entry is a block that was
  freed with `delete`), `State.objs` holds alive-flags of the managed objects
  (the role of the `Traced` liveness counter in the tests), and
  `State.deleterRuns` logs every executed deletion action.
* Dereferencing a null or freed control-block pointer, and deleting an object
  that is already dead, are undefined behaviour in C++; operations that can do
  this return `Option` and yield `none` exactly there.
* `std::size_t` counter arithmetic wraps modulo `2 ^ 64`
  (`m_count.fetch_sub(1)` and `++m_count` are modular).
-/

namespace SharedPtrSpec

/-- Deletion routines that can be bound into a control block: the default
`std::default_delete` or a caller-supplied custom action, identified by a tag. -/
inductive DeleterKind where
  | defaultDelete : DeleterKind
  | custom : Nat → DeleterKind
deriving DecidableEq, Repr

/-- The type-erased nullary closure produced by `detail::make_deleter`:
it captures the destruction routine and the specific raw pointer value. -/
structure Deleter where
  kind : DeleterKind
  ptr : Option Nat
deriving DecidableEq, Repr

/-- `detail::make_deleter(deleter, ptr)`: binds the routine and the pointer. -/
def make_deleter (kind : DeleterKind) (ptr : Option Nat) : Deleter :=
  ⟨kind, ptr⟩

/-- `detail::ControlBlock`: an ownership counter (`std::atomic<std::size_t>`)
plus the immutable type-erased deleter. -/
structure ControlBlock where
  m_count : Nat
  m_deleter : Deleter
deriving DecidableEq, Repr

/-- Modulus of `std::size_t` arithmetic. -/
def size_t_mod : Nat := 2 ^ 64

/-- `ControlBlock::ControlBlock(deleter)`: count starts at 1. -/
def ControlBlock.create (d : Deleter) : ControlBlock :=
  ⟨1, d⟩

/-- `ControlBlock::get_count()`. -/
def ControlBlock.get_count (cb : ControlBlock) : Nat :=
  cb.m_count

/-- `ControlBlock::fetch_sub_1()`: returns the prior count and the updated
block; `std::atomic<std::size_t>::fetch_sub(1)` wraps modulo `2 ^ 64`. -/
def ControlBlock.fetch_sub_1 (cb : ControlBlock) : Nat × ControlBlock :=
  (cb.m_count, { cb with m_count := (cb.m_count + (size_t_mod - 1)) % size_t_mod })

/-- `ControlBlock::increment_count()`: `++m_count`, modulo `2 ^ 64`. -/
def ControlBlock.increment_count (cb : ControlBlock) : ControlBlock :=
  { cb with m_count := (cb.m_count + 1) % size_t_mod }

/-- The explicit heap: allocated control blocks (`none` = freed), alive-flags
of managed objects, and the log of executed deletion actions. -/
structure State where
  blocks : List (Option ControlBlock)
  objs : List Bool
  deleterRuns : List Deleter
deriving DecidableEq, Repr

/-- The empty heap. -/
def State.empty : State :=
  ⟨[], [], []⟩

/-- Read control block `b`, `none` when never allocated or already freed. -/
def State.getBlock (s : State) (b : Nat) : Option ControlBlock :=
  match s.blocks.get? b with
  | some cb => cb
  | none => none

/-- Overwrite the heap slot of control block `b`. -/
def State.setBlock (s : State) (b : Nat) (cb : Option ControlBlock) : State :=
  { s with blocks := s.blocks.set b cb }

/-- `new detail::ControlBlock{...}`: appends a fresh block, returns its id. -/
def State.allocBlock (s : State) (cb : ControlBlock) : State × Nat :=
  ({ s with blocks := s.blocks ++ [some cb] }, s.blocks.length)

/-- `new Traced{}` on the caller side: a fresh alive managed object. -/
def State.allocObj (s : State) : State × Nat :=
  ({ s with objs := s.objs ++ [true] }, s.objs.length)

/-- Is managed object `o` alive? -/
def State.objAlive (s : State) (o : Nat) : Bool :=
  s.objs.getD o false

/-- `ControlBlock::delete_owned()` = run the stored closure: it destroys the
captured object (`delete ptr`; deleting `nullptr` is a no-op, deleting a dead
object is undefined behaviour) and is logged in `deleterRuns`. -/
def State.runDeleter (s : State) (d : Deleter) : Option State :=
  match d.ptr with
  | none => some { s with deleterRuns := s.deleterRuns ++ [d] }
  | some o =>
    if s.objAlive o then
      some { s with objs := s.objs.set o false, deleterRuns := s.deleterRuns ++ [d] }
    else none

/-- `SharedPtr<T>`: the two member fields. `none` models a null field. -/
structure SharedPtr where
  m_control_block : Option Nat
  m_ptr : Option Nat
deriving DecidableEq, Repr

/-- `SharedPtr()` and `SharedPtr(std::nullptr_t)`: both fields null. -/
def SharedPtr.mkEmpty : SharedPtr :=
  ⟨none, none⟩

/-- `SharedPtr::get()`. -/
def SharedPtr.get (h : SharedPtr) : Option Nat :=
  h.m_ptr

/-- The owning constructor `SharedPtr(ptr_t instance, deleter_t deleter)`:
allocates one control block with count 1 whose closure binds the given
deletion routine to the given pointer value. -/
def SharedPtr.fromPtr (s : State) (inst : Option Nat) (kind : DeleterKind) :
    State × SharedPtr :=
  ((s.allocBlock (ControlBlock.create (make_deleter kind inst))).1,
   ⟨some (s.allocBlock (ControlBlock.create (make_deleter kind inst))).2, inst⟩)

/-- The copy constructor `SharedPtr(const SharedPtr&)`: shares both fields and
then unconditionally executes `m_control_block->increment_count()` — on an
empty source this dereferences a null pointer (undefined behaviour, `none`),
and on a dangling source it touches a freed block (also `none`). -/
def SharedPtr.copy (s : State) (other : SharedPtr) : Option (State × SharedPtr) :=
  match other.m_control_block with
  | none => none
  | some b =>
    match s.getBlock b with
    | none => none
    | some cb => some (s.setBlock b (some cb.increment_count), ⟨some b, other.m_ptr⟩)

/-- The move constructor `SharedPtr(SharedPtr&&)`: steals both fields, nulls
the source, and touches no control block (it takes no heap at all). Returns
(destination, source afterwards). -/
def SharedPtr.move (other : SharedPtr) : SharedPtr × SharedPtr :=
  (⟨other.m_control_block, other.m_ptr⟩, ⟨none, none⟩)

/-- `SharedPtr::reset()`: when `m_control_block` is non-null, `fetch_sub_1`;
when the prior count was 1, run the deletion action, `delete` the block, and
null both fields. Mirrors the source exactly: the two field assignments sit
inside the `if (1 == count_prior_to_decrement)` branch, so when the prior
count was greater than 1 the handle's fields are left untouched. -/
def SharedPtr.reset (s : State) (h : SharedPtr) : Option (State × SharedPtr) :=
  match h.m_control_block with
  | none => some (s, h)
  | some b =>
    match s.getBlock b with
    | none => none
    | some cb =>
      let (prior, cb1) := cb.fetch_sub_1
      let s1 := s.setBlock b (some cb1)
      if prior = 1 then
        match s1.runDeleter cb1.m_deleter with
        | none => none
        | some s2 => some (s2.setBlock b none, ⟨none, none⟩)
      else
        some (s1, h)

/-- `SharedPtr::use_count()`: 0 for a null control-block field, otherwise the
block's current count (reading a freed block is undefined behaviour). -/
def SharedPtr.use_count (s : State) (h : SharedPtr) : Option Nat :=
  match h.m_control_block with
  | none => some 0
  | some b =>
    match s.getBlock b with
    | none => none
    | some cb => some cb.get_count

/-- Result of `operator=(ptr_t)`, which can fail in `new ControlBlock`:
either the assignment completed, or `std::bad_alloc` propagated leaving the
recorded heap and handle behind, or undefined behaviour was reached. -/
inductive AssignResult where
  | ok : State → SharedPtr → AssignResult
  | allocFailed : State → SharedPtr → AssignResult
  | ub : AssignResult
deriving DecidableEq, Repr

/-- `SharedPtr::operator=(ptr_t ptr)`: when `get() != ptr`, first construct
the new control block (binding `std::default_delete` to `ptr`) — the `allocOk`
flag models whether this `new` succeeds; `false` throws before anything is
mutated — then `reset()` the old ownership and install the new fields. -/
def SharedPtr.assignPtr (allocOk : Bool) (s : State) (h : SharedPtr)
    (ptr : Option Nat) : AssignResult :=
  if h.get = ptr then .ok s h
  else if allocOk then
    match SharedPtr.reset
        (s.allocBlock (ControlBlock.create (make_deleter .defaultDelete ptr))).1 h with
    | none => .ub
    | some (s2, _) =>
      .ok s2 ⟨some (s.allocBlock (ControlBlock.create (make_deleter .defaultDelete ptr))).2, ptr⟩
  else .allocFailed s h

/-- `SharedPtr::operator=(std::nullptr_t)`: just `reset()`. -/
def SharedPtr.assignNull (s : State) (h : SharedPtr) : Option (State × SharedPtr) :=
  SharedPtr.reset s h

/-- `SharedPtr::operator=(const SharedPtr&)`: when `*this != other` (handles
compare by `get()`), destroy in place (`this->~SharedPtr()`, i.e. `reset()`)
and then placement-new copy-construct from `other`. -/
def SharedPtr.assignCopy (s : State) (h other : SharedPtr) :
    Option (State × SharedPtr) :=
  if h.get = other.get then some (s, h)
  else
    match SharedPtr.reset s h with
    | none => none
    | some (s1, _) =>
      match SharedPtr.copy s1 other with
      | none => none
      | some (s2, h1) => some (s2, h1)

/-- The free `swap(SharedPtr&, SharedPtr&)`: exchanges both member fields of
the two handles; no heap access, no counter mutation. Returns the pair
(lhs afterwards, rhs afterwards). -/
def swapHandles (lhs rhs : SharedPtr) : SharedPtr × SharedPtr :=
  (⟨rhs.m_control_block, rhs.m_ptr⟩, ⟨lhs.m_control_block, lhs.m_ptr⟩)

/-- The handle invariant claimed by the spec:
`raw_pointer == null ⇔ control_block_ref == null`. -/
def SharedPtr.inv (h : SharedPtr) : Bool :=
  h.m_ptr.isNone == h.m_control_block.isNone

/-- A handle is well-formed over a heap when its control-block field, if
non-null, refers to a slot that has actually been allocated at some point. -/
def SharedPtr.wf (s : State) (h : SharedPtr) : Bool :=
  match h.m_control_block with
  | none => true
  | some b => decide (b < s.blocks.length)

/-- Iterated copy construction: make `n` copies of `h`, threading the heap
(the loop body of the sharing test scenarios). -/
def mkCopies : Nat → State → SharedPtr → Option (State × List SharedPtr)
  | 0, s, _ => some (s, [])
  | n + 1, s, h =>
    match SharedPtr.copy s h with
    | none => none
    | some (s1, c) =>
      match mkCopies n s1 h with
      | none => none
      | some (s2, cs) => some (s2, c :: cs)

/-- Destroy (destructor = `reset()`) each handle of the list in turn. -/
def resetAll : State → List SharedPtr → Option State
  | s, [] => some s
  | s, c :: cs =>
    match SharedPtr.reset s c with
    | none => none
    | some (s1, _) => resetAll s1 cs

/-- Demo heap holding one alive managed object, id 0 (`new Traced{}`). -/
def demoS0 : State := (State.empty.allocObj).1

/-- Owning construction over the demo heap: the first owner of object 0. -/
def demoMk : State × SharedPtr := SharedPtr.fromPtr demoS0 (some 0) DeleterKind.defaultDelete

/-- Demo heap after the owning construction. -/
def demoS1 : State := demoMk.1

/-- The first owner of object 0. -/
def demoH1 : SharedPtr := demoMk.2

/-- Copy construction of a second owner from `demoH1`. -/
def demoCp : State × SharedPtr :=
  (SharedPtr.copy demoS1 demoH1).getD (State.empty, SharedPtr.mkEmpty)

/-- Demo heap with two owners of object 0 (count 2). -/
def demoS2 : State := demoCp.1

/-- The second owner of object 0. -/
def demoH2 : SharedPtr := demoCp.2

/-- Effect of `demoH1.reset()` on the two-owner heap. -/
def demoR1 : State × SharedPtr :=
  (SharedPtr.reset demoS2 demoH1).getD (State.empty, SharedPtr.mkEmpty)

/-- Demo heap after `demoH1.reset()` on the two-owner heap. -/
def demoS3 : State := demoR1.1

/-- Effect of `demoH1`'s destructor (which is `reset()`) running afterwards. -/
def demoR2 : State × SharedPtr :=
  (SharedPtr.reset demoS3 demoH1).getD (State.empty, SharedPtr.mkEmpty)

/-- Demo heap after `demoH1` has additionally been destroyed. -/
def demoS4 : State := demoR2.1

/-- Demo heap holding two alive managed objects, ids 0 and 1. -/
def demoT0 : State := ((State.empty.allocObj).1.allocObj).1

/-- Sole owner of object 0 over the two-object demo heap. -/
def demoTa : State × SharedPtr := SharedPtr.fromPtr demoT0 (some 0) DeleterKind.defaultDelete

/-- Sole owner of object 1, constructed after `demoTa`. -/
def demoTb : State × SharedPtr := SharedPtr.fromPtr demoTa.1 (some 1) DeleterKind.defaultDelete

/-- Sole owner of object 0 holding a caller-supplied custom deletion action. -/
def demoCu : State × SharedPtr := SharedPtr.fromPtr demoT0 (some 0) (DeleterKind.custom 7)

/-- Outcome of assigning the raw pointer of object 1 to the custom-deleter
handle (`demoCu.2 = (Traced*)&obj1` in C++ terms). -/
def demoCuRes : State × SharedPtr :=
  match SharedPtr.assignPtr true demoCu.1 demoCu.2 (some 1) with
  | AssignResult.ok s h => (s, h)
  | _ => (State.empty, SharedPtr.mkEmpty)

/-- Reading back the slot just written. -/
theorem State.getBlock_setBlock_self (s : State) (b : Nat) (x : Option ControlBlock)
    (hb : b < s.blocks.length) : (s.setBlock b x).getBlock b = x := by
  simp [State.getBlock, State.setBlock, List.get?_eq_getElem?, List.getElem?_set, hb]

/-- Writing one slot leaves every other slot unchanged. -/
theorem State.getBlock_setBlock_ne (s : State) (b b' : Nat) (x : Option ControlBlock)
    (hne : b ≠ b') : (s.setBlock b x).getBlock b' = s.getBlock b' := by
  simp [State.getBlock, State.setBlock, List.get?_eq_getElem?, List.getElem?_set, hne]

/-- A freshly allocated block is readable at the returned id. -/
theorem State.getBlock_allocBlock_self (s : State) (cb : ControlBlock) :
    (s.allocBlock cb).1.getBlock (s.allocBlock cb).2 = some cb := by
  simp [State.getBlock, State.allocBlock, List.get?_eq_getElem?, List.getElem?_append]

/-- Allocation does not disturb previously allocated slots. -/
theorem State.getBlock_allocBlock_lt (s : State) (cb : ControlBlock) (b : Nat)
    (hb : b < s.blocks.length) : (s.allocBlock cb).1.getBlock b = s.getBlock b := by
  simp [State.getBlock, State.allocBlock, List.get?_eq_getElem?, List.getElem?_append, hb]

/-- A readable block lies inside the allocated range. -/
theorem State.lt_length_of_getBlock_some (s : State) (b : Nat) (cb : ControlBlock)
    (hb : s.getBlock b = some cb) : b < s.blocks.length := by
  by_contra hge
  have hnone : s.blocks.get? b = none := List.get?_eq_none.mpr (by omega)
  rw [List.get?_eq_getElem?] at hnone
  simp [State.getBlock, List.get?_eq_getElem?, hnone] at hb

/-- Writing a block slot changes neither the objects nor the deleter log nor
the number of slots. -/
theorem State.setBlock_frame (s : State) (b : Nat) (x : Option ControlBlock) :
    (s.setBlock b x).objs = s.objs ∧ (s.setBlock b x).deleterRuns = s.deleterRuns ∧
      (s.setBlock b x).blocks.length = s.blocks.length := by
  refine ⟨rfl, rfl, ?_⟩
  simp [State.setBlock]

/-- A successful copy construction from a handle satisfying the field
invariant yields a handle satisfying the field invariant. -/
theorem SharedPtr.inv_copy {s : State} {other : SharedPtr} {s1 : State}
    {h1 : SharedPtr} (hinv : other.inv = true)
    (hc : SharedPtr.copy s other = some (s1, h1)) : h1.inv = true := by
  unfold SharedPtr.copy at hc
  split at hc
  · simp at hc
  rename_i b hob
  split at hc
  · simp at hc
  rename_i cb hgb
  simp only [Option.some.injEq, Prod.mk.injEq] at hc
  obtain ⟨-, hh⟩ := hc
  subst hh
  unfold SharedPtr.inv at hinv ⊢
  rw [hob] at hinv
  simpa using hinv

/-- A successful `reset()` on a handle satisfying the field invariant yields a
handle satisfying the field invariant. -/
theorem SharedPtr.inv_reset {s : State} {h : SharedPtr} {s1 : State}
    {h1 : SharedPtr} (hinv : h.inv = true)
    (hr : SharedPtr.reset s h = some (s1, h1)) : h1.inv = true := by
  unfold SharedPtr.reset at hr
  split at hr
  · simp only [Option.some.injEq, Prod.mk.injEq] at hr
    obtain ⟨-, hh⟩ := hr
    subst hh
    exact hinv
  rename_i b hob
  split at hr
  · simp at hr
  rename_i cb hgb
  simp only at hr
  split at hr
  · split at hr
    · simp at hr
    simp only [Option.some.injEq, Prod.mk.injEq] at hr
    obtain ⟨-, hh⟩ := hr
    subst hh
    rfl
  · simp only [Option.some.injEq, Prod.mk.injEq] at hr
    obtain ⟨-, hh⟩ := hr
    subst hh
    exact hinv

/-- Running a deletion action never changes the control-block heap. -/
theorem State.runDeleter_blocks {s : State} {d : Deleter} {s1 : State}
    (hr : s.runDeleter d = some s1) : s1.blocks = s.blocks := by
  unfold State.runDeleter at hr
  split at hr
  · simp only [Option.some.injEq] at hr
    subst hr
    rfl
  · split at hr
    · simp only [Option.some.injEq] at hr
      subst hr
      rfl
    · simp at hr

/-- A successful `reset()` touches no control-block slot other than the one
the handle itself references. -/
theorem SharedPtr.reset_getBlock_ne {s : State} {h : SharedPtr} {s1 : State}
    {h1 : SharedPtr} (hr : SharedPtr.reset s h = some (s1, h1)) (b : Nat)
    (hne : h.m_control_block ≠ some b) : s1.getBlock b = s.getBlock b := by
  unfold SharedPtr.reset at hr
  split at hr
  · simp only [Option.some.injEq, Prod.mk.injEq] at hr
    obtain ⟨hs, -⟩ := hr
    subst hs
    rfl
  rename_i bOld hob
  have hbne : bOld ≠ b := fun he => hne (he ▸ hob)
  split at hr
  · simp at hr
  rename_i cb hgb
  simp only at hr
  split at hr
  · split at hr
    · simp at hr
    rename_i s2 hrd
    simp only [Option.some.injEq, Prod.mk.injEq] at hr
    obtain ⟨hs, -⟩ := hr
    subst hs
    have hblocks : s2.blocks = (s.setBlock bOld (some cb.fetch_sub_1.2)).blocks :=
      State.runDeleter_blocks hrd
    calc (s2.setBlock bOld none).getBlock b
        = s2.getBlock b := State.getBlock_setBlock_ne s2 bOld b none hbne
      _ = (s.setBlock bOld (some cb.fetch_sub_1.2)).getBlock b := by
          unfold State.getBlock
          rw [hblocks]
      _ = s.getBlock b := State.getBlock_setBlock_ne s bOld b _ hbne
  · simp only [Option.some.injEq, Prod.mk.injEq] at hr
    obtain ⟨hs, -⟩ := hr
    subst hs
    exact State.getBlock_setBlock_ne s bOld b _ hbne

/-- Copy construction on a live block: shares the fields and bumps the count. -/
theorem SharedPtr.copy_eq_of_getBlock {s : State} {b : Nat} {p : Option Nat}
    {cnt : Nat} {d : Deleter} (hb : s.getBlock b = some ⟨cnt, d⟩) :
    SharedPtr.copy s ⟨some b, p⟩ =
      some (s.setBlock b (some ⟨(cnt + 1) % size_t_mod, d⟩), ⟨some b, p⟩) := by
  simp [SharedPtr.copy, hb, ControlBlock.increment_count]

/-- Resetting a co-owner (count at least 2): pure decrement, the handle's own
fields are left untouched, no deletion action runs, the block stays live. -/
theorem SharedPtr.reset_eq_of_not_last {s : State} {b : Nat} {p : Option Nat}
    {cnt : Nat} {d : Deleter} (hb : s.getBlock b = some ⟨cnt, d⟩)
    (h2 : 2 ≤ cnt) (hlt : cnt < size_t_mod) :
    SharedPtr.reset s ⟨some b, p⟩ =
      some (s.setBlock b (some ⟨cnt - 1, d⟩), ⟨some b, p⟩) := by
  have hM : 0 < size_t_mod := by norm_num [size_t_mod]
  have hmod : (cnt + (size_t_mod - 1)) % size_t_mod = cnt - 1 := by
    rw [show cnt + (size_t_mod - 1) = (cnt - 1) + 1 * size_t_mod from by omega,
      Nat.add_mul_mod_self_right, Nat.mod_eq_of_lt (by omega)]
  have hne : ¬(cnt = 1) := by omega
  simp [SharedPtr.reset, hb, ControlBlock.fetch_sub_1, hne, hmod]

/-- Making `n` copies of a handle over a live block multiplies the owners:
the count rises by exactly `n`, every copy is field-identical to the
original, and nothing else in the heap changes. -/
theorem mkCopies_replicate (n : Nat) : ∀ (s : State) (b : Nat) (p : Option Nat)
    (cnt : Nat) (d : Deleter), s.getBlock b = some ⟨cnt, d⟩ →
    cnt + n < size_t_mod →
    ∃ s2, mkCopies n s ⟨some b, p⟩ = some (s2, List.replicate n (⟨some b, p⟩ : SharedPtr)) ∧
      s2.getBlock b = some ⟨cnt + n, d⟩ ∧ s2.objs = s.objs ∧
      s2.deleterRuns = s.deleterRuns ∧ s2.blocks.length = s.blocks.length := by
  induction n with
  | zero =>
    intro s b p cnt d hb _
    exact ⟨s, rfl, by simpa using hb, rfl, rfl, rfl⟩
  | succ n ih =>
    intro s b p cnt d hb hlt
    have hblt : b < s.blocks.length := State.lt_length_of_getBlock_some s b _ hb
    have hmod : (cnt + 1) % size_t_mod = cnt + 1 := Nat.mod_eq_of_lt (by omega)
    have hcopy := SharedPtr.copy_eq_of_getBlock (p := p) hb
    rw [hmod] at hcopy
    have hb1 : (s.setBlock b (some ⟨cnt + 1, d⟩)).getBlock b = some ⟨cnt + 1, d⟩ :=
      State.getBlock_setBlock_self s b _ hblt
    obtain ⟨s2, hrun, hcnt, hobjs, hdel, hlen⟩ :=
      ih (s.setBlock b (some ⟨cnt + 1, d⟩)) b p (cnt + 1) d hb1 (by omega)
    refine ⟨s2, ?_, ?_, ?_, ?_, ?_⟩
    · simp only [mkCopies, hcopy, hrun, List.replicate_succ]
    · rw [hcnt]
      congr 2
      omega
    · exact hobjs
    · exact hdel
    · rw [hlen]
      exact (State.setBlock_frame s b _).2.2

/-- Destroying `m` co-owner copies of a live block with count above `m`:
each destruction is a pure decrement; no deletion action runs and the heap is
otherwise unchanged. -/
theorem resetAll_replicate (m : Nat) : ∀ (s : State) (b : Nat) (p : Option Nat)
    (cnt : Nat) (d : Deleter), s.getBlock b = some ⟨cnt, d⟩ →
    m < cnt → cnt < size_t_mod →
    ∃ s3, resetAll s (List.replicate m (⟨some b, p⟩ : SharedPtr)) = some s3 ∧
      s3.getBlock b = some ⟨cnt - m, d⟩ ∧ s3.objs = s.objs ∧
      s3.deleterRuns = s.deleterRuns ∧ s3.blocks.length = s.blocks.length := by
  induction m with
  | zero =>
    intro s b p cnt d hb _ _
    exact ⟨s, rfl, by simpa using hb, rfl, rfl, rfl⟩
  | succ m ih =>
    intro s b p cnt d hb hm hlt
    have hblt : b < s.blocks.length := State.lt_length_of_getBlock_some s b _ hb
    have hreset := SharedPtr.reset_eq_of_not_last (p := p) hb (by omega) hlt
    have hb1 : (s.setBlock b (some ⟨cnt - 1, d⟩)).getBlock b = some ⟨cnt - 1, d⟩ :=
      State.getBlock_setBlock_self s b _ hblt
    obtain ⟨s3, hrun, hcnt, hobjs, hdel, hlen⟩ :=
      ih (s.setBlock b (some ⟨cnt - 1, d⟩)) b p (cnt - 1) d hb1 (by omega) (by omega)
    refine ⟨s3, ?_, ?_, ?_, ?_, ?_⟩
    · simp only [List.replicate_succ, resetAll, hreset, hrun]
    · rw [hcnt]
      congr 2
      omega
    · exact hobjs
    · exact hdel
    · rw [hlen]
      exact (State.setBlock_frame s b _).2.2

/-- C1: `reset()` decrements and finalizes correctly when the handle is the
last owner, and is a no-op on an empty handle; but the field assignments that
the claim says happen "in all cases" sit inside the `if (1 == prior)` branch
of the source, so on a two-owner heap `demoH1.reset()` returns the handle
with both fields still set. The handle's later destruction (the destructor is
`reset()` again) therefore decrements a second time and finalizes the block
while `demoH2` still co-owns it: object 0 is destroyed, the block is freed,
and `demoH2` is left dangling (its `use_count()` read is undefined
behaviour, `none`). -/
theorem C1_reset_keeps_fields_of_non_last_owner :
    SharedPtr.copy demoS1 demoH1 = some (demoS2, demoH2) ∧
    SharedPtr.use_count demoS2 demoH1 = some 2 ∧
    SharedPtr.reset demoS2 demoH1 = some (demoS3, demoH1) ∧
    demoH1.m_ptr = some 0 ∧
    demoH1.m_control_block = some 0 ∧
    SharedPtr.reset demoS3 demoH1 = some (demoS4, SharedPtr.mkEmpty) ∧
    demoS4.objAlive 0 = false ∧
    demoH2.get = some 0 ∧
    SharedPtr.use_count demoS4 demoH2 = none := by
  decide

/-- C2: the claim fails on the code: the copy constructor unconditionally
executes `m_control_block->increment_count()`, so copy construction from an
empty handle (both fields null) dereferences a null control-block pointer —
undefined behaviour (`none` in the model) — rather than producing an empty
handle with no increment. -/
theorem C2_copy_of_empty_dereferences_null (s : State) :
    SharedPtr.mkEmpty.m_control_block = none ∧
    SharedPtr.copy s SharedPtr.mkEmpty = none :=
  ⟨rfl, rfl⟩

/-- C3: counterexample to the claimed invariant: the public owning
constructor called with a null raw pointer of pointer type (`SharedPtr<T>
h{p}` with `p == nullptr`) allocates a control block, yielding a handle with
`get() == null` yet `use_count() == 1`, with `raw_pointer == null` while
`control_block_ref != null`. -/
theorem C3_null_pointer_breaks_invariant :
    (SharedPtr.fromPtr State.empty none DeleterKind.defaultDelete).2.get = none ∧
    SharedPtr.use_count (SharedPtr.fromPtr State.empty none DeleterKind.defaultDelete).1
      (SharedPtr.fromPtr State.empty none DeleterKind.defaultDelete).2 = some 1 ∧
    SharedPtr.inv (SharedPtr.fromPtr State.empty none DeleterKind.defaultDelete).2 = false := by
  decide

/-- C3 (amended): the field invariant `raw_pointer == null ⇔
control_block_ref == null` is preserved by every public operation provided
the raw pointer handed to the owning constructor and to `operator=(ptr_t)` is
non-null; and under the invariant a handle with `get() == null` indeed has
`use_count() == 0`. (Constructing or assigning from a null raw pointer
breaks the invariant, as the counterexample shows.) -/
theorem C3_invariant_preserved_for_nonnull_pointers :
    (SharedPtr.inv SharedPtr.mkEmpty = true) ∧
    (∀ (s : State) (o : Nat) (k : DeleterKind),
        SharedPtr.inv (SharedPtr.fromPtr s (some o) k).2 = true) ∧
    (∀ (s : State) (other : SharedPtr) (s1 : State) (h1 : SharedPtr),
        other.inv = true → SharedPtr.copy s other = some (s1, h1) →
        h1.inv = true) ∧
    (∀ h : SharedPtr, h.inv = true →
        (SharedPtr.move h).1.inv = true ∧ (SharedPtr.move h).2.inv = true) ∧
    (∀ (s : State) (h : SharedPtr) (s1 : State) (h1 : SharedPtr),
        h.inv = true → SharedPtr.reset s h = some (s1, h1) → h1.inv = true) ∧
    (∀ (ok : Bool) (s : State) (h : SharedPtr) (o : Option Nat) (s1 : State)
        (h1 : SharedPtr), h.inv = true → o.isSome = true →
        SharedPtr.assignPtr ok s h o = AssignResult.ok s1 h1 → h1.inv = true) ∧
    (∀ (ok : Bool) (s : State) (h : SharedPtr) (o : Option Nat) (s1 : State)
        (h1 : SharedPtr), h.inv = true →
        SharedPtr.assignPtr ok s h o = AssignResult.allocFailed s1 h1 →
        h1.inv = true) ∧
    (∀ (s : State) (h : SharedPtr) (s1 : State) (h1 : SharedPtr),
        h.inv = true → SharedPtr.assignNull s h = some (s1, h1) →
        h1.inv = true) ∧
    (∀ (s : State) (h other : SharedPtr) (s1 : State) (h1 : SharedPtr),
        h.inv = true → other.inv = true →
        SharedPtr.assignCopy s h other = some (s1, h1) → h1.inv = true) ∧
    (∀ a b : SharedPtr, a.inv = true → b.inv = true →
        (swapHandles a b).1.inv = true ∧ (swapHandles a b).2.inv = true) ∧
    (∀ (s : State) (h : SharedPtr), h.inv = true → h.get = none →
        SharedPtr.use_count s h = some 0) := by
  refine ⟨rfl, ?_, ?_, ?_, ?_, ?_, ?_, ?_, ?_, ?_, ?_⟩
  · intro s o k
    rfl
  · intro s other s1 h1 hinv hc
    exact SharedPtr.inv_copy hinv hc
  · intro h hinv
    exact ⟨hinv, rfl⟩
  · intro s h s1 h1 hinv hr
    exact SharedPtr.inv_reset hinv hr
  · intro ok s h o s1 h1 hinv ho hx
    unfold SharedPtr.assignPtr at hx
    split at hx
    · simp only [AssignResult.ok.injEq] at hx
      obtain ⟨-, hh⟩ := hx
      subst hh
      exact hinv
    · split at hx
      · split at hx
        · simp at hx
        · simp only [AssignResult.ok.injEq] at hx
          obtain ⟨-, hh⟩ := hx
          subst hh
          obtain ⟨x, hox⟩ := Option.isSome_iff_exists.mp ho
          subst hox
          rfl
      · simp at hx
  · intro ok s h o s1 h1 hinv hx
    unfold SharedPtr.assignPtr at hx
    split at hx
    · simp at hx
    · split at hx
      · split at hx
        · simp at hx
        · simp at hx
      · simp only [AssignResult.allocFailed.injEq] at hx
        obtain ⟨-, hh⟩ := hx
        subst hh
        exact hinv
  · intro s h s1 h1 hinv hr
    unfold SharedPtr.assignNull at hr
    exact SharedPtr.inv_reset hinv hr
  · intro s h other s1 h1 hinv hoinv hc
    unfold SharedPtr.assignCopy at hc
    split at hc
    · simp only [Option.some.injEq, Prod.mk.injEq] at hc
      obtain ⟨-, hh⟩ := hc
      subst hh
      exact hinv
    · split at hc
      · simp at hc
      · split at hc
        · simp at hc
        rename_i s2 h2 hcp
        simp only [Option.some.injEq, Prod.mk.injEq] at hc
        obtain ⟨-, hh⟩ := hc
        subst hh
        exact SharedPtr.inv_copy hoinv hcp
  · intro a b ha hb
    exact ⟨hb, ha⟩
  · intro s h hinv hg
    rcases hcb : h.m_control_block with _ | b
    · simp [SharedPtr.use_count, hcb]
    · exfalso
      unfold SharedPtr.inv at hinv
      unfold SharedPtr.get at hg
      rw [hg, hcb] at hinv
      simp at hinv

/-- C3 (witness for the amended statement): applying the `reset()` conjunct
on the concrete two-owner heap. -/
theorem C3_invariant_preserved_witness :
    demoH1.inv = true ∧ demoR1.2.inv = true :=
  ⟨by decide,
    C3_invariant_preserved_for_nonnull_pointers.2.2.2.2.1 demoS2 demoH1 demoS3
      demoR1.2 (by decide) (by decide)⟩

/-- C4: `operator=(ptr_t)` with a different pointer constructs the new
control block before releasing the old ownership, so when that `new` fails
the `bad_alloc` propagates while the heap and the handle — hence `get()`,
`use_count()`, the ownership and the deletion log — are left exactly as they
were (strong exception safety). -/
theorem C4_assign_ptr_alloc_failure_is_atomic (s : State) (h : SharedPtr)
    (ptr : Option Nat) (hne : h.get ≠ ptr) :
    SharedPtr.assignPtr false s h ptr = AssignResult.allocFailed s h := by
  unfold SharedPtr.assignPtr
  rw [if_neg hne]
  rfl

/-- C4 witness: allocation failure while assigning object 1's address to the
sole owner of object 0 leaves heap and handle unchanged. -/
theorem C4_assign_ptr_alloc_failure_witness :
    demoTa.2.get ≠ some 1 ∧
    SharedPtr.assignPtr false demoTa.1 demoTa.2 (some 1) =
      AssignResult.allocFailed demoTa.1 demoTa.2 :=
  ⟨by decide, C4_assign_ptr_alloc_failure_is_atomic demoTa.1 demoTa.2 (some 1) (by decide)⟩

/-- C5: copy assignment guards on `*this != other`, which compares managed
addresses (`get()`), so assigning a handle to itself — directly or through
any alias with the same managed address — takes the no-op branch: the heap
(hence `use_count()` and the deletion-action log) and the handle are returned
unchanged and no deletion action can run. -/
theorem C5_self_assignment_is_noop (s : State) (h other : SharedPtr)
    (halias : h.get = other.get) :
    SharedPtr.assignCopy s h other = some (s, h) := by
  unfold SharedPtr.assignCopy
  rw [if_pos halias]

/-- C5 witness: `demoH1 = demoH1` on the live demo heap is a no-op. -/
theorem C5_self_assignment_witness :
    demoH1.get = demoH1.get ∧
    SharedPtr.assignCopy demoS1 demoH1 demoH1 = some (demoS1, demoH1) :=
  ⟨rfl, C5_self_assignment_is_noop demoS1 demoH1 demoH1 rfl⟩

/-- C7: move construction from a non-empty handle steals both fields into the
destination and leaves the source empty (`get() == null`); it takes no heap
at all (no allocation, no counter mutation), so the count observed through
the destination is exactly the count observable through the source before
the move. -/
theorem C7_move_transfers_without_touching_counter (s : State) (h : SharedPtr)
    (_hne : h.m_control_block ≠ none) :
    (SharedPtr.move h).1 = h ∧
    (SharedPtr.move h).2 = SharedPtr.mkEmpty ∧
    (SharedPtr.move h).2.get = none ∧
    SharedPtr.use_count s (SharedPtr.move h).1 = SharedPtr.use_count s h :=
  ⟨rfl, rfl, rfl, rfl⟩

/-- C7 witness: moving the live owner `demoH1`. -/
theorem C7_move_witness :
    demoH1.m_control_block ≠ none ∧
    (SharedPtr.move demoH1).1 = demoH1 ∧
    (SharedPtr.move demoH1).2.get = none :=
  ⟨by decide,
    (C7_move_transfers_without_touching_counter demoS1 demoH1 (by decide)).1,
    (C7_move_transfers_without_touching_counter demoS1 demoH1 (by decide)).2.2.1⟩

/-- C8: the free `swap` exchanges exactly the two member fields of the two
handles and performs no heap access whatsoever (the heap is not even an input
of the operation), so with `a` sole owner of X and `b` sole owner of Y the
result points `a` at Y and `b` at X, both counts are still 1 on the same
unchanged heap, and both managed objects remain alive. -/
theorem C8_swap_exchanges_fields (s : State) (a b : SharedPtr) (x y : Nat)
    (hax : a.get = some x) (hby : b.get = some y)
    (ha1 : SharedPtr.use_count s a = some 1)
    (hb1 : SharedPtr.use_count s b = some 1)
    (hxa : s.objAlive x = true) (hya : s.objAlive y = true) :
    (swapHandles a b).1.get = some y ∧
    (swapHandles a b).2.get = some x ∧
    SharedPtr.use_count s (swapHandles a b).1 = some 1 ∧
    SharedPtr.use_count s (swapHandles a b).2 = some 1 ∧
    s.objAlive x = true ∧ s.objAlive y = true :=
  ⟨hby, hax, hb1, ha1, hxa, hya⟩

/-- C8 witness: swapping the sole owners of objects 0 and 1. -/
theorem C8_swap_witness :
    demoTa.2.get = some 0 ∧ demoTb.2.get = some 1 ∧
    (swapHandles demoTa.2 demoTb.2).1.get = some 1 ∧
    (swapHandles demoTa.2 demoTb.2).2.get = some 0 ∧
    SharedPtr.use_count demoTb.1 (swapHandles demoTa.2 demoTb.2).1 = some 1 :=
  ⟨by decide, by decide,
    (C8_swap_exchanges_fields demoTb.1 demoTa.2 demoTb.2 0 1 (by decide)
      (by decide) (by decide) (by decide) (by decide) (by decide)).1,
    (C8_swap_exchanges_fields demoTb.1 demoTa.2 demoTb.2 0 1 (by decide)
      (by decide) (by decide) (by decide) (by decide) (by decide)).2.1,
    (C8_swap_exchanges_fields demoTb.1 demoTa.2 demoTb.2 0 1 (by decide)
      (by decide) (by decide) (by decide) (by decide) (by decide)).2.2.1⟩

/-- C9: `operator=(ptr_t)` called with the handle's own current pointer
(`h = h.get()`) takes the `get() != ptr` guard's false branch: no control
block is allocated, nothing is decremented, no deletion action runs, and the
heap and the handle — which therefore still owns its object — are returned
unchanged. -/
theorem C9_assign_own_pointer_is_noop (allocOk : Bool) (s : State)
    (h : SharedPtr) :
    SharedPtr.assignPtr allocOk s h h.get = AssignResult.ok s h := by
  unfold SharedPtr.assignPtr
  rw [if_pos rfl]

/-- C6: owning construction from a raw pointer allocates a control block with
count 1, so `use_count() == 1`; each of `n` subsequent copies increments the
shared count, so `use_count() == n + 1` is observed through the original and
through every copy; destroying (or resetting) the `n` copies, one at a time,
restores `use_count() == 1`, with no deletion action ever run and the managed
objects untouched. -/
theorem C6_use_count_tracks_owner_count (s0 s1 : State) (h : SharedPtr)
    (o : Nat) (k : DeleterKind) (n : Nat) (hn : n + 1 < size_t_mod)
    (hfp : SharedPtr.fromPtr s0 (some o) k = (s1, h)) :
    SharedPtr.use_count s1 h = some 1 ∧
    ∃ s2, mkCopies n s1 h = some (s2, List.replicate n h) ∧
      SharedPtr.use_count s2 h = some (n + 1) ∧
      (∀ c ∈ List.replicate n h, SharedPtr.use_count s2 c = some (n + 1)) ∧
      ∃ s3, resetAll s2 (List.replicate n h) = some s3 ∧
        SharedPtr.use_count s3 h = some 1 ∧
        s3.objs = s0.objs ∧ s3.deleterRuns = s0.deleterRuns := by
  unfold SharedPtr.fromPtr at hfp
  simp only [Prod.mk.injEq] at hfp
  obtain ⟨hs, hh⟩ := hfp
  subst hs
  subst hh
  have hb : ((s0.allocBlock (ControlBlock.create (make_deleter k (some o)))).1).getBlock
      s0.blocks.length = some (ControlBlock.create (make_deleter k (some o))) :=
    State.getBlock_allocBlock_self s0 _
  have hb' : ((s0.allocBlock (ControlBlock.create (make_deleter k (some o)))).1).getBlock
      (s0.allocBlock (ControlBlock.create (make_deleter k (some o)))).2 =
      some ⟨1, make_deleter k (some o)⟩ := hb
  refine ⟨?_, ?_⟩
  · simp [SharedPtr.use_count, hb', ControlBlock.get_count]
  obtain ⟨s2, hrun, hcnt, hobjs, hdel, -⟩ :=
    mkCopies_replicate n ((s0.allocBlock (ControlBlock.create (make_deleter k (some o)))).1)
      (s0.allocBlock (ControlBlock.create (make_deleter k (some o)))).2 (some o) 1
      (make_deleter k (some o)) hb' (by omega)
  have hcnt' : s2.getBlock (s0.allocBlock (ControlBlock.create (make_deleter k (some o)))).2 =
      some ⟨n + 1, make_deleter k (some o)⟩ := by
    rw [hcnt]
    congr 2
    omega
  refine ⟨s2, hrun, ?_, ?_, ?_⟩
  · simp [SharedPtr.use_count, hcnt', ControlBlock.get_count]
  · intro c hc
    rw [List.eq_of_mem_replicate hc]
    simp [SharedPtr.use_count, hcnt', ControlBlock.get_count]
  obtain ⟨s3, hrun3, hcnt3, hobjs3, hdel3, -⟩ :=
    resetAll_replicate n s2 (s0.allocBlock (ControlBlock.create (make_deleter k (some o)))).2
      (some o) (n + 1) (make_deleter k (some o)) hcnt' (by omega) (by omega)
  have hcnt3' : s3.getBlock (s0.allocBlock (ControlBlock.create (make_deleter k (some o)))).2 =
      some ⟨1, make_deleter k (some o)⟩ := by
    rw [hcnt3]
    congr 2
    omega
  refine ⟨s3, hrun3, ?_, ?_, ?_⟩
  · simp [SharedPtr.use_count, hcnt3', ControlBlock.get_count]
  · rw [hobjs3, hobjs]
    rfl
  · rw [hdel3, hdel]
    rfl

/-- C6 witness: three owners of object 0 after two copies, then back to one. -/
theorem C6_use_count_witness :
    (2 + 1 < size_t_mod) ∧
    SharedPtr.use_count demoS1 demoH1 = some 1 :=
  ⟨by norm_num [size_t_mod],
    (C6_use_count_tracks_owner_count demoS0 demoS1 demoH1 0
      DeleterKind.defaultDelete 2 (by norm_num [size_t_mod]) rfl).1⟩

/-- C10: a successful `operator=(ptr_t)` with a different pointer installs a
freshly allocated control block whose deletion action is
`std::default_delete` bound to the new pointer — whatever action the handle's
previous block carried (for instance a caller-supplied custom deleter) is not
carried over to the new object. -/
theorem C10_assign_ptr_rebinds_default_deleter (s : State) (h : SharedPtr)
    (ptr : Option Nat) (s1 : State) (h1 : SharedPtr)
    (hwf : h.wf s = true) (hne : h.get ≠ ptr)
    (hok : SharedPtr.assignPtr true s h ptr = AssignResult.ok s1 h1) :
    h1.m_control_block = some s.blocks.length ∧ h1.m_ptr = ptr ∧
    s1.getBlock s.blocks.length =
      some (ControlBlock.create (make_deleter DeleterKind.defaultDelete ptr)) := by
  unfold SharedPtr.assignPtr at hok
  rw [if_neg hne, if_pos rfl] at hok
  split at hok
  · simp at hok
  rename_i s2 h2 hres
  simp only [AssignResult.ok.injEq] at hok
  obtain ⟨hs, hh⟩ := hok
  subst hs
  subst hh
  refine ⟨rfl, rfl, ?_⟩
  have hcbne : h.m_control_block ≠ some s.blocks.length := by
    unfold SharedPtr.wf at hwf
    intro hcb
    rw [hcb] at hwf
    simp at hwf
  have hpres := SharedPtr.reset_getBlock_ne hres s.blocks.length hcbne
  rw [hpres]
  exact State.getBlock_allocBlock_self s _

/-- C10 witness: the owner of object 0 held a custom deletion action; after
`h = &obj1` the installed block carries the default action bound to
object 1's address. -/
theorem C10_rebind_witness :
    demoCu.2.wf demoCu.1 = true ∧
    demoCu.2.get ≠ some 1 ∧
    demoCuRes.2.m_control_block = some demoCu.1.blocks.length ∧
    demoCuRes.1.getBlock demoCu.1.blocks.length =
      some (ControlBlock.create (make_deleter DeleterKind.defaultDelete (some 1))) :=
  ⟨by decide, by decide,
    (C10_assign_ptr_rebinds_default_deleter demoCu.1 demoCu.2 (some 1)
      demoCuRes.1 demoCuRes.2 (by decide) (by decide) (by decide)).1,
    (C10_assign_ptr_rebinds_default_deleter demoCu.1 demoCu.2 (some 1)
      demoCuRes.1 demoCuRes.2 (by decide) (by decide) (by decide)).2.2⟩

end SharedPtrSpec
